import Mathlib

/-!
Shallow embedding of the Fall-Predictor Streamlit app (src/app.py).

The app is a single script: it loads a serialized model bundle at the top
of the module, renders a form of eleven numeric inputs, and on pressing
"Predict" validates that the five device-measured fields are nonzero,
builds a one-row pandas DataFrame with columns taken from the bundle's
feature list, calls the classifier's predict_proba, thresholds at 0.50,
and renders a probability line, a label line, and one risk banner.

Python floats are modelled as rationals: every comparison the script
performs (equality with 0, ordering against 0.50) is exact in both
representations.  A pandas NaN cell is modelled as `none`.
-/

namespace FallPredictor

/-- A numeric value entered in the form or stored in a data-frame cell. -/
abbrev Value := ℚ

/-- The eleven fields assembled from the UI widgets (app.py lines 24-97). -/
structure FeatureRecord where
  gender : Value
  height_cm : Value
  hypertension : Value
  odi : Value
  vas : Value
  ps_velocity : Value
  ps_sway_area : Value
  ps_sway_path : Value
  w_velocity : Value
  w_duration : Value
  medication_count : Value
deriving DecidableEq

/-- `input_dict` (app.py lines 105-117): the insertion-ordered dict mapping
feature names to the widget values. -/
def input_dict (r : FeatureRecord) : List (String × Value) :=
  [("Gender", r.gender),
   ("Height", r.height_cm),
   ("Hypertension", r.hypertension),
   ("ODI", r.odi),
   ("VAS", r.vas),
   ("PS_Velocity", r.ps_velocity),
   ("PS_Sway_Area", r.ps_sway_area),
   ("PS_Sway_Path", r.ps_sway_path),
   ("W_Velocity", r.w_velocity),
   ("W_Duration", r.w_duration),
   ("Medication_Count", r.medication_count)]

/-- Dict lookup as pandas performs it when building a DataFrame from a dict:
the value under the first matching key, if any. -/
def dictLookup (d : List (String × Value)) (k : String) : Option Value :=
  (d.find? (fun p => p.1 == k)).map Prod.snd

/-- `X_input = pd.DataFrame([input_dict], columns=FEATURES)` (app.py line 119):
the single row, as an ordered list of (column, cell).  Column order is the
`columns=` argument; a column absent from the dict gets NaN (`none`); a dict
key absent from `columns=` is dropped. -/
def X_input (FEATURES : List String) (r : FeatureRecord) :
    List (String × Option Value) :=
  FEATURES.map (fun c => (c, dictLookup (input_dict r) c))

/-- The loaded classifier, opaque except for `predict_proba`, which returns
the class-0 and class-1 probabilities for the single row (the script reads
entry `[0, 1]`, the second component here). -/
structure Classifier where
  predict_proba : List (String × Option Value) → Value × Value

/-- The deserialized bundle after successful startup: `bundle["model"]` and
`bundle["features"]` (app.py lines 10-12). -/
structure ModelBundle where
  model : Classifier
  features : List String

/-- The raw artifact on disk: a dict whose "model" / "features" entries may be
absent. -/
structure Artifact where
  model : Option Classifier
  features : Option (List String)

/-- Errors raised during the module-level load (app.py lines 10-12):
`joblib.load` fails if the file is absent; `bundle[k]` raises KeyError. -/
inductive StartupError
  | fileNotFound
  | keyError (k : String)
deriving DecidableEq

/-- The module-level load (app.py lines 10-12): `bundle = joblib.load(...)`,
`model = bundle["model"]`, `FEATURES = bundle["features"]`.  `none` for the
argument models an absent artifact file. -/
def startup (loaded : Option Artifact) : Except StartupError ModelBundle :=
  match loaded with
  | none => .error .fileNotFound
  | some a =>
    match a.model with
    | none => .error (.keyError "model")
    | some m =>
      match a.features with
      | none => .error (.keyError "features")
      | some fs => .ok ⟨m, fs⟩

/-- `required_fields` (app.py lines 126-132): the five device-measured values
keyed by their display names, in dict insertion order. -/
def required_fields (r : FeatureRecord) : List (String × Value) :=
  [("Postural Stability Velocity", r.ps_velocity),
   ("Postural Stability Sway Area", r.ps_sway_area),
   ("Postural Stability Sway Path", r.ps_sway_path),
   ("Walking Velocity", r.w_velocity),
   ("Walking Duration", r.w_duration)]

/-- `missing = [name for name, val in required_fields.items() if val == 0]`
(app.py line 134). -/
def missing (r : FeatureRecord) : List String :=
  ((required_fields r).filter (fun p => decide (p.2 = 0))).map Prod.fst

/-- `threshold = 0.50` (app.py line 121).  The comparison on line 146 uses the
literal 0.50; both denote the same constant. -/
def threshold : Value := 0.50

/-- `pred = 1 if proba_fall >= 0.50 else 0` (app.py line 146). -/
def pred_label (proba_fall : Value) : Nat :=
  if proba_fall ≥ 0.50 then 1 else 0

/-- Result of the guarded block under the Predict button (app.py
lines 125-146): either the validation warning with the offending field
names, or the probability together with the thresholded label. -/
inductive PredictOutcome
  | missingMeasurement (fields : List String)
  | prediction (proba_fall : Value) (pred : Nat)
deriving DecidableEq

/-- The validate-then-predict path (app.py lines 125-146): if `missing` is
nonempty the script warns and stops before touching the model; otherwise
`proba_fall = model.predict_proba(X_input)[0, 1]` and the label is the
thresholded probability. -/
def validate_and_predict (model : Classifier) (FEATURES : List String)
    (r : FeatureRecord) : PredictOutcome :=
  let miss := missing r
  if miss.length > 0 then
    .missingMeasurement miss
  else
    let proba_fall := (model.predict_proba (X_input FEATURES r)).2
    .prediction proba_fall (pred_label proba_fall)

/-- The displayed probability: `f"{proba_fall:.3f}"` rounds to three decimal
places (app.py line 148); the rounded rational stands for the rendered text. -/
def round3 (q : Value) : Value := ((round (q * 1000) : ℤ) : ℚ) / 1000

/-- One rendering call made on the success path (app.py lines 148-154). -/
inductive RenderAction
  | probaLine (shown : Value)
  | predLine (pred : Nat)
  | bannerHigh
  | bannerLow
deriving DecidableEq

/-- `True` exactly on the two colored risk banners. -/
def RenderAction.isBanner : RenderAction → Bool
  | .bannerHigh => true
  | .bannerLow => true
  | _ => false

/-- The success-path rendering (app.py lines 148-154): probability line,
label line, then `st.error` ("High Fall Risk") when `pred == 1`, else
`st.success` ("Low Fall Risk"). -/
def render_prediction (proba_fall : Value) (pred : Nat) : List RenderAction :=
  [.probaLine (round3 proba_fall), .predLine pred] ++
    (if pred = 1 then [.bannerHigh] else [.bannerLow])

/-- Everything one execution of the script can end in. -/
inductive ScriptOutcome
  | startupFailure (e : StartupError)
  | formOnly
  | validationWarning (fields : List String)
  | predictionShown (actions : List RenderAction)
deriving DecidableEq

/-- One top-to-bottom run of app.py: the module-level load runs first and a
load failure propagates before any widget or prediction code; with a loaded
bundle, nothing below line 123 runs unless the Predict button was pressed. -/
def scriptRun (loaded : Option Artifact) (r : FeatureRecord)
    (buttonPressed : Bool) : ScriptOutcome :=
  match startup loaded with
  | .error e => .startupFailure e
  | .ok b =>
    if buttonPressed then
      match validate_and_predict b.model b.features r with
      | .missingMeasurement fs => .validationWarning fs
      | .prediction p l => .predictionShown (render_prediction p l)
    else .formOnly

/-- A bounded `st.number_input(min_value, max_value)`: the widget accepts an
entry exactly when it lies within the configured bounds, and passes the
accepted value through unchanged. -/
def number_input (min_value max_value entered : Value) : Option Value :=
  if min_value ≤ entered ∧ entered ≤ max_value then some entered else none

/-- The ODI widget (app.py line 49): `st.number_input("ODI Score (0-50)",
min_value=0.0, max_value=100.0, ...)` — the label says 0-50 but the widget
bounds are [0, 100]. -/
def odi_widget (entered : Value) : Option Value := number_input 0 100 entered

/-- The process state visible to the prediction path: the bundle loaded at
startup.  The script assigns no module-level name inside the Predict block,
so a call returns the state unchanged. -/
structure SessionState where
  bundle : ModelBundle

/-- One press of Predict as a state transition: the outcome together with the
(unchanged) state. -/
def predict_call (s : SessionState) (r : FeatureRecord) :
    PredictOutcome × SessionState :=
  (validate_and_predict s.bundle.model s.bundle.features r, s)

/-- A classifier whose `predict_proba` is a probability distribution over the
two classes on every input row. -/
def IsProbabilistic (m : Classifier) : Prop :=
  ∀ x, 0 ≤ (m.predict_proba x).1 ∧ 0 ≤ (m.predict_proba x).2 ∧
       (m.predict_proba x).1 + (m.predict_proba x).2 = 1

/-- A concrete classifier for evaluating the pipeline at specific inputs. -/
def constClassifier : Classifier := ⟨fun _ => (1/2, 1/2)⟩

/-- The eleven field names the form supplies, in assembly order. -/
def FORM_FIELDS : List String :=
  ["Gender", "Height", "Hypertension", "ODI", "VAS", "PS_Velocity",
   "PS_Sway_Area", "PS_Sway_Path", "W_Velocity", "W_Duration",
   "Medication_Count"]

/-- A record with every device-measured field supplied (nonzero). -/
def r1 : FeatureRecord :=
  ⟨0, 170, 0, 10, 2, 1, 1, 1, 1, 1, 0⟩

/-- A record whose five device-measured fields are all negative: physically
impossible, but not excluded by the unbounded device-field widgets. -/
def negRecord : FeatureRecord :=
  ⟨0, 170, 0, 10, 2, -1, -1, -1, -1, -1, 0⟩

/-- An artifact whose feature list names no field the form supplies. -/
def bogusArtifact : Artifact := ⟨some constClassifier, some ["Bogus"]⟩

end FallPredictor

namespace FallPredictor

/-- A record with the Postural Stability Velocity left at its zero default and
every other device field supplied. -/
def rz : FeatureRecord := ⟨0, 170, 0, 10, 2, 0, 1, 1, 1, 1, 0⟩

/-- An observable event of one script run: an execution of the line-10
`joblib.load` (with its result), or the run ending in its outcome. -/
inductive ScriptEvent
  | loadExec (result : Except StartupError ModelBundle)
  | ended (o : ScriptOutcome)

/-- `True` exactly on executions of the line-10 load. -/
def ScriptEvent.isLoad : ScriptEvent → Bool
  | .loadExec _ => true
  | _ => false

/-- One top-to-bottom run of app.py as an event sequence: the module-level
load at line 10 is the first statement and executes unconditionally, exactly
once per run, and the run ends in its script outcome. -/
def scriptTrace (loaded : Option Artifact) (r : FeatureRecord)
    (btn : Bool) : List ScriptEvent :=
  [.loadExec (startup loaded), .ended (scriptRun loaded r btn)]

/-- A Streamlit session: one process serves a sequence of user interactions,
and every interaction re-executes the whole script from the top (the spec's
concurrency section: "each user interaction re-runs the whole
form-to-prediction path from scratch").  Nothing in app.py caches the
line-10 load — no cache decorator wraps it — so every rerun repeats it.
The artifact on disk is fixed for the process. -/
def sessionTrace (loaded : Option Artifact)
    (interactions : List (FeatureRecord × Bool)) : List ScriptEvent :=
  interactions.flatMap (fun i => scriptTrace loaded i.1 i.2)

/-- How many times the line-10 load executed in an event sequence. -/
def loadCount (evs : List ScriptEvent) : Nat :=
  (evs.filter ScriptEvent.isLoad).length

theorem mem_missing_iff (r : FeatureRecord) (n : String) :
    n ∈ missing r ↔
      (n = "Postural Stability Velocity" ∧ r.ps_velocity = 0) ∨
      (n = "Postural Stability Sway Area" ∧ r.ps_sway_area = 0) ∨
      (n = "Postural Stability Sway Path" ∧ r.ps_sway_path = 0) ∨
      (n = "Walking Velocity" ∧ r.w_velocity = 0) ∨
      (n = "Walking Duration" ∧ r.w_duration = 0) := by
  simp [missing, required_fields, List.mem_map, List.mem_filter]
  tauto

theorem missing_eq_nil_iff (r : FeatureRecord) :
    missing r = [] ↔
      (r.ps_velocity ≠ 0 ∧ r.ps_sway_area ≠ 0 ∧ r.ps_sway_path ≠ 0 ∧
       r.w_velocity ≠ 0 ∧ r.w_duration ≠ 0) := by
  simp [missing, required_fields, List.filter_eq_nil_iff]

theorem valid_predict (m : Classifier) (F : List String) (r : FeatureRecord)
    (h : missing r = []) :
    validate_and_predict m F r =
      .prediction ((m.predict_proba (X_input F r)).2)
        (pred_label ((m.predict_proba (X_input F r)).2)) := by
  simp [validate_and_predict, h]

theorem invalid_predict (m : Classifier) (F : List String) (r : FeatureRecord)
    (h : missing r ≠ []) :
    validate_and_predict m F r = .missingMeasurement (missing r) := by
  simp [validate_and_predict, List.length_pos.mpr h]

theorem missing_nodup (r : FeatureRecord) : (missing r).Nodup := by
  simp [missing, required_fields, List.filter]
  rcases hd : decide (r.ps_velocity = 0) <;> rcases h2 : decide (r.ps_sway_area = 0) <;>
    rcases h3 : decide (r.ps_sway_path = 0) <;> rcases h4 : decide (r.w_velocity = 0) <;>
    rcases h5 : decide (r.w_duration = 0) <;> simp_all

theorem label_of_prediction (m : Classifier) (F : List String) (r : FeatureRecord)
    (p : Value) (l : Nat) (h : validate_and_predict m F r = .prediction p l) :
    p = (m.predict_proba (X_input F r)).2 ∧ l = pred_label p := by
  by_cases hval : missing r = []
  · rw [valid_predict m F r hval] at h
    injection h with h1 h2
    exact ⟨h1.symm, by rw [← h1]; exact h2.symm⟩
  · rw [invalid_predict m F r hval] at h
    exact absurd h (by simp)

theorem input_dict_keys (r : FeatureRecord) :
    (input_dict r).map Prod.fst = FORM_FIELDS := rfl

theorem dictLookup_eq_none (d : List (String × Value)) (k : String)
    (h : k ∉ d.map Prod.fst) : dictLookup d k = none := by
  have h' : ∀ p ∈ d, ¬((p.1 == k) = true) := by
    intro p hp hbeq
    exact h (List.mem_map.mpr ⟨p, hp, by simpa using hbeq⟩)
  simp [dictLookup, List.find?_eq_none.mpr h']

/-- C1: if at least one of the five device-measured fields equals exactly 0,
validation fails with a MissingMeasurement warning listing exactly the
zero-valued fields (each name listed iff its field is 0, no duplicates), the
outcome does not depend on the classifier (it is never invoked), and no
prediction is produced or rendered by any script run on that record. -/
theorem c1_zero_field_blocks_prediction (m mAlt : Classifier) (F : List String)
    (r : FeatureRecord)
    (h : r.ps_velocity = 0 ∨ r.ps_sway_area = 0 ∨ r.ps_sway_path = 0 ∨
         r.w_velocity = 0 ∨ r.w_duration = 0) :
    ∃ fs, validate_and_predict m F r = .missingMeasurement fs ∧
      fs ≠ [] ∧ fs.Nodup ∧
      (∀ n, n ∈ fs ↔
        ((n = "Postural Stability Velocity" ∧ r.ps_velocity = 0) ∨
         (n = "Postural Stability Sway Area" ∧ r.ps_sway_area = 0) ∨
         (n = "Postural Stability Sway Path" ∧ r.ps_sway_path = 0) ∨
         (n = "Walking Velocity" ∧ r.w_velocity = 0) ∨
         (n = "Walking Duration" ∧ r.w_duration = 0))) ∧
      validate_and_predict mAlt F r = validate_and_predict m F r ∧
      (∀ p l, validate_and_predict m F r ≠ .prediction p l) ∧
      (∀ (loaded : Option Artifact) (acts : List RenderAction),
        scriptRun loaded r true ≠ .predictionShown acts) := by
  have hne : missing r ≠ [] := by
    intro hc
    rw [missing_eq_nil_iff] at hc
    tauto
  refine ⟨missing r, invalid_predict m F r hne, hne, missing_nodup r,
    fun n => mem_missing_iff r n, ?_, ?_, ?_⟩
  · rw [invalid_predict m F r hne, invalid_predict mAlt F r hne]
  · intro p l
    rw [invalid_predict m F r hne]
    simp
  · intro loaded acts
    cases hs : startup loaded with
    | error e => simp [scriptRun, hs]
    | ok b =>
      simp [scriptRun, hs, invalid_predict b.model b.features r hne]

/-- Witness for C1 at the concrete record rz, whose PS velocity is zero. -/
theorem c1_zero_field_blocks_prediction_witness :
    (rz.ps_velocity = 0 ∨ rz.ps_sway_area = 0 ∨ rz.ps_sway_path = 0 ∨
     rz.w_velocity = 0 ∨ rz.w_duration = 0) ∧
    (∃ fs, validate_and_predict constClassifier FORM_FIELDS rz = .missingMeasurement fs ∧
      fs ≠ [] ∧ fs.Nodup ∧
      (∀ n, n ∈ fs ↔
        ((n = "Postural Stability Velocity" ∧ rz.ps_velocity = 0) ∨
         (n = "Postural Stability Sway Area" ∧ rz.ps_sway_area = 0) ∨
         (n = "Postural Stability Sway Path" ∧ rz.ps_sway_path = 0) ∨
         (n = "Walking Velocity" ∧ rz.w_velocity = 0) ∨
         (n = "Walking Duration" ∧ rz.w_duration = 0))) ∧
      validate_and_predict constClassifier FORM_FIELDS rz =
        validate_and_predict constClassifier FORM_FIELDS rz ∧
      (∀ p l, validate_and_predict constClassifier FORM_FIELDS rz ≠ .prediction p l) ∧
      (∀ (loaded : Option Artifact) (acts : List RenderAction),
        scriptRun loaded rz true ≠ .predictionShown acts)) :=
  ⟨Or.inl rfl,
   c1_zero_field_blocks_prediction constClassifier constClassifier FORM_FIELDS rz (Or.inl rfl)⟩

/-- C2: for every valid record, the row handed to the classifier has its
columns ordered exactly as the bundle's declared feature list, for every
feature list and every record: the classifier is applied to `X_input`, whose
column sequence is literally FEATURES. -/
theorem c2_feature_order (m : Classifier) (F : List String) (r : FeatureRecord)
    (h : missing r = []) :
    (X_input F r).map Prod.fst = F ∧
    validate_and_predict m F r =
      .prediction ((m.predict_proba (X_input F r)).2)
        (pred_label ((m.predict_proba (X_input F r)).2)) :=
  ⟨by
    unfold X_input
    induction F with
    | nil => rfl
    | cons c cs ih => simp only [List.map_cons, ih], valid_predict m F r h⟩

/-- Witness for C2 at the form's own field list and the valid record r1. -/
theorem c2_feature_order_witness :
    missing r1 = [] ∧
    ((X_input FORM_FIELDS r1).map Prod.fst = FORM_FIELDS ∧
     validate_and_predict constClassifier FORM_FIELDS r1 =
       .prediction ((constClassifier.predict_proba (X_input FORM_FIELDS r1)).2)
         (pred_label ((constClassifier.predict_proba (X_input FORM_FIELDS r1)).2))) :=
  ⟨rfl, c2_feature_order constClassifier FORM_FIELDS r1 rfl⟩

/-- C3: the decision threshold is the fixed constant 0.50; the label is 1
exactly when the probability is at least the threshold and 0 exactly when it
is below, and every label produced by validate_and_predict is the thresholded
probability. -/
theorem c3_threshold :
    threshold = 0.50 ∧
    (∀ p : Value, (pred_label p = 1 ↔ threshold ≤ p) ∧ (pred_label p = 0 ↔ p < threshold)) ∧
    (∀ (m : Classifier) (F : List String) (r : FeatureRecord) (p : Value) (l : Nat),
      validate_and_predict m F r = .prediction p l → l = pred_label p) := by
  refine ⟨rfl, ?_, ?_⟩
  · intro p
    constructor
    · rw [show threshold = 0.50 from rfl]
      unfold pred_label
      split_ifs with hp
      · simpa using hp
      · simpa using hp
    · rw [show threshold = 0.50 from rfl]
      unfold pred_label
      split_ifs with hp
      · simpa using not_lt.mpr hp
      · simpa using lt_of_not_ge hp
  · intro m F r p l h
    exact (label_of_prediction m F r p l h).2

/-- Witness for C3 at the probabilities 1 and 0. -/
theorem c3_threshold_witness : pred_label 1 = 1 ∧ pred_label 0 = 0 :=
  ⟨(c3_threshold.2.1 1).1.mpr (by norm_num [threshold]),
   (c3_threshold.2.1 0).2.mpr (by norm_num [threshold])⟩

/-- C4 counterexample, refuting both false clauses of the claim.  First, a
bundle whose feature list names no field the form supplies is not rejected:
startup succeeds and a prediction is rendered, so a feature-name mismatch is
not fatal at startup.  Second, the load does not run exactly once at process
start: a session of two user interactions re-executes the script, and with
it the uncached line-10 load, twice in the same process. -/
theorem c4_feature_mismatch_not_fatal_cex :
    startup (some bogusArtifact) = .ok ⟨constClassifier, ["Bogus"]⟩ ∧
    "Bogus" ∉ FORM_FIELDS ∧
    scriptRun (some bogusArtifact) r1 true =
      .predictionShown (render_prediction (1/2) 1) ∧
    loadCount (sessionTrace (some bogusArtifact) [(r1, true), (r1, true)]) = 2 := by
  refine ⟨rfl, by simp [FORM_FIELDS], ?_, rfl⟩
  norm_num [scriptRun, startup, bogusArtifact, validate_and_predict, missing,
    required_fields, r1, constClassifier, pred_label]

/-- C4 (amended): the bundle load executes at the top of every script run —
once per user interaction in a session, not exactly once per process.  The
load fails exactly when the artifact is absent or lacks a "model" or
"features" entry; after any load failure the script run ends in the startup
failure, and in a session every event of every rerun is that same failing
load or that same failed ending, so no prediction path ever executes and the
failure is not recoverable within the session.  Feature names are not
checked at load time. -/
theorem c4_load_failure_fatal :
    (∀ a : Option Artifact,
      (∃ e, startup a = .error e) ↔
        (a = none ∨ ∃ x, a = some x ∧ (x.model = none ∨ x.features = none))) ∧
    (∀ (a : Option Artifact) (e : StartupError) (r : FeatureRecord) (btn : Bool),
      startup a = .error e → scriptRun a r btn = .startupFailure e) ∧
    (∀ (a : Option Artifact) (interactions : List (FeatureRecord × Bool)),
      loadCount (sessionTrace a interactions) = interactions.length) ∧
    (∀ (a : Option Artifact) (e : StartupError)
       (interactions : List (FeatureRecord × Bool)),
      startup a = .error e →
        ∀ ev ∈ sessionTrace a interactions,
          ev = .loadExec (.error e) ∨ ev = .ended (.startupFailure e)) := by
  have hrun : ∀ (a : Option Artifact) (e : StartupError) (r : FeatureRecord)
      (btn : Bool), startup a = .error e → scriptRun a r btn = .startupFailure e := by
    intro a e r btn h
    simp [scriptRun, h]
  refine ⟨?_, hrun, ?_, ?_⟩
  · intro a
    cases a with
    | none => simp [startup]
    | some x =>
      obtain ⟨om, of⟩ := x
      cases om <;> cases of <;> simp [startup]
  · intro a interactions
    induction interactions with
    | nil => rfl
    | cons i rest ih =>
      simp only [sessionTrace, List.flatMap_cons] at *
      simp only [loadCount, List.filter_append, List.length_append] at *
      rw [show (List.filter ScriptEvent.isLoad (scriptTrace a i.1 i.2)).length = 1 from rfl]
      simp only [List.length_cons, ih]
      omega
  · intro a e interactions h
    induction interactions with
    | nil => simp [sessionTrace]
    | cons i rest ih =>
      intro ev hev
      simp only [sessionTrace, List.flatMap_cons, List.mem_append] at hev
      rcases hev with hev | hev
      · simp only [scriptTrace, List.mem_cons, List.not_mem_nil, or_false] at hev
        rcases hev with hev | hev
        · rw [hev, h]
          exact Or.inl rfl
        · rw [hev, hrun a e i.1 i.2 h]
          exact Or.inr rfl
      · exact ih ev hev

/-- Witness for the amended C4 at an absent artifact and a two-interaction
session. -/
theorem c4_load_failure_fatal_witness :
    startup (none : Option Artifact) = .error .fileNotFound ∧
    scriptRun none r1 true = .startupFailure .fileNotFound ∧
    loadCount (sessionTrace none [(r1, true), (r1, true)]) = 2 :=
  ⟨rfl, c4_load_failure_fatal.2.1 none .fileNotFound r1 true rfl,
   c4_load_failure_fatal.2.2.1 none [(r1, true), (r1, true)]⟩

/-- C5: the ODI widget accepts exactly the values in [0, 100] (despite the
0-50 label), and the accepted value reaches the assembled feature dict
unchanged under the "ODI" key. -/
theorem c5_odi_range :
    (∀ v : Value, odi_widget v = some v ↔ 0 ≤ v ∧ v ≤ 100) ∧
    (∀ r : FeatureRecord, dictLookup (input_dict r) "ODI" = some r.odi) := by
  constructor
  · intro v
    unfold odi_widget number_input
    split_ifs with hv
    · simpa using hv
    · simpa using hv
  · intro r
    rfl

/-- Witness for C5 at the value 75, above the 0-50 instruction cap. -/
theorem c5_odi_range_witness : odi_widget 75 = some 75 :=
  (c5_odi_range.1 75).mpr (by norm_num)

/-- C6: whenever the loaded classifier returns class probabilities, the
probability reported by validate_and_predict lies in [0, 1]. -/
theorem c6_probability_unit_interval (m : Classifier) (hm : IsProbabilistic m)
    (F : List String) (r : FeatureRecord) (p : Value) (l : Nat)
    (h : validate_and_predict m F r = .prediction p l) :
    0 ≤ p ∧ p ≤ 1 := by
  obtain ⟨hp, -⟩ := label_of_prediction m F r p l h
  obtain ⟨ha, hb, hc⟩ := hm (X_input F r)
  exact ⟨hp ▸ hb, by rw [hp]; linarith⟩

/-- Witness for C6 with the constant classifier on the valid record r1. -/
theorem c6_probability_unit_interval_witness : 0 ≤ (1/2 : ℚ) ∧ (1/2 : ℚ) ≤ 1 :=
  c6_probability_unit_interval constClassifier
    (fun x => by norm_num [constClassifier]) FORM_FIELDS r1 (1/2) 1
    (by rw [valid_predict constClassifier FORM_FIELDS r1 rfl]
        norm_num [constClassifier, pred_label])

/-- C7: a prediction call leaves the session state unchanged, and a second
call on the identical record returns the identical outcome: the path is
deterministic and mutates no state. -/
theorem c7_idempotent_pure (s : SessionState) (r : FeatureRecord) :
    (predict_call s r).2 = s ∧
    (predict_call ((predict_call s r).2) r).1 = (predict_call s r).1 :=
  ⟨rfl, rfl⟩

/-- C8: on every successful prediction the rendered output holds the rounded
probability, the label, and exactly one risk banner: the high banner iff the
label is 1, the low banner iff it is 0, never both and never neither. -/
theorem c8_exactly_one_banner (m : Classifier) (F : List String) (r : FeatureRecord)
    (p : Value) (l : Nat)
    (h : validate_and_predict m F r = .prediction p l) :
    ((render_prediction p l).filter RenderAction.isBanner).length = 1 ∧
    (RenderAction.bannerHigh ∈ render_prediction p l ↔ l = 1) ∧
    (RenderAction.bannerLow ∈ render_prediction p l ↔ l = 0) ∧
    ¬(RenderAction.bannerHigh ∈ render_prediction p l ∧
      RenderAction.bannerLow ∈ render_prediction p l) ∧
    RenderAction.probaLine (round3 p) ∈ render_prediction p l ∧
    RenderAction.predLine l ∈ render_prediction p l := by
  obtain ⟨-, hl⟩ := label_of_prediction m F r p l h
  rw [hl]
  unfold pred_label
  by_cases hp : p ≥ 0.50 <;>
    simp [hp, render_prediction, RenderAction.isBanner, List.filter]

/-- Witness for C8 at the prediction returned on r1 by the constant
classifier. -/
theorem c8_exactly_one_banner_witness :
    ((render_prediction (1/2) 1).filter RenderAction.isBanner).length = 1 ∧
    (RenderAction.bannerHigh ∈ render_prediction (1/2) 1 ↔ (1 : Nat) = 1) ∧
    (RenderAction.bannerLow ∈ render_prediction (1/2) 1 ↔ (1 : Nat) = 0) ∧
    ¬(RenderAction.bannerHigh ∈ render_prediction (1/2) 1 ∧
      RenderAction.bannerLow ∈ render_prediction (1/2) 1) ∧
    RenderAction.probaLine (round3 (1/2)) ∈ render_prediction (1/2) 1 ∧
    RenderAction.predLine 1 ∈ render_prediction (1/2) 1 :=
  c8_exactly_one_banner constClassifier FORM_FIELDS r1 (1/2) 1
    (by rw [valid_predict constClassifier FORM_FIELDS r1 rfl]
        norm_num [constClassifier, pred_label])

/-- C9: validation fails exactly when one of the five device-measured values
equals 0; in particular the all-negative record, physically impossible yet
within the unbounded widgets, passes validation and is fed to the
classifier. -/
theorem c9_zero_iff_and_negatives_pass :
    (∀ r : FeatureRecord, missing r ≠ [] ↔
      (r.ps_velocity = 0 ∨ r.ps_sway_area = 0 ∨ r.ps_sway_path = 0 ∨
       r.w_velocity = 0 ∨ r.w_duration = 0)) ∧
    (negRecord.ps_velocity < 0 ∧ negRecord.ps_sway_area < 0 ∧
     negRecord.ps_sway_path < 0 ∧ negRecord.w_velocity < 0 ∧
     negRecord.w_duration < 0) ∧
    (∀ (m : Classifier) (F : List String),
      validate_and_predict m F negRecord =
        .prediction ((m.predict_proba (X_input F negRecord)).2)
          (pred_label ((m.predict_proba (X_input F negRecord)).2))) := by
  refine ⟨?_, by norm_num [negRecord], fun m F => valid_predict m F negRecord ?_⟩
  · intro r
    rw [Ne, missing_eq_nil_iff]
    tauto
  · rw [missing_eq_nil_iff]
    norm_num [negRecord]

/-- Witness for C9 at the record rz whose PS velocity is zero. -/
theorem c9_zero_iff_and_negatives_pass_witness : missing rz ≠ [] :=
  (c9_zero_iff_and_negatives_pass.1 rz).mpr (Or.inl rfl)

/-- C10: nothing compares the bundle's feature list with the eleven assembled
names: the row's columns are exactly the declared list, a declared name the
form does not supply appears with a NaN cell, an assembled field not declared
is dropped, and inference proceeds on that row without error. -/
theorem c10_no_feature_name_check (m : Classifier) (F : List String)
    (r : FeatureRecord) (h : missing r = []) :
    ((X_input F r).map Prod.fst = F) ∧
    (∀ c ∈ F, c ∉ FORM_FIELDS → (c, (none : Option Value)) ∈ X_input F r) ∧
    (∀ c, c ∉ F → ∀ v, (c, v) ∉ X_input F r) ∧
    validate_and_predict m F r =
      .prediction ((m.predict_proba (X_input F r)).2)
        (pred_label ((m.predict_proba (X_input F r)).2)) := by
  refine ⟨?_, ?_, ?_, valid_predict m F r h⟩
  · unfold X_input
    induction F with
    | nil => rfl
    | cons c cs ih => simp only [List.map_cons, ih]
  · intro c hc hnc
    have hnone : dictLookup (input_dict r) c = none :=
      dictLookup_eq_none _ _ (by rw [input_dict_keys]; exact hnc)
    have hmem : (c, dictLookup (input_dict r) c) ∈ X_input F r :=
      List.mem_map.mpr ⟨c, hc, rfl⟩
    rw [hnone] at hmem
    exact hmem
  · intro c hc v hmem
    apply hc
    obtain ⟨a, ha, he⟩ := List.mem_map.mp hmem
    injection he with h1 h2
    exact h1 ▸ ha

/-- Witness for C10 at a feature list naming no form field. -/
theorem c10_no_feature_name_check_witness :
    missing r1 = [] ∧ ("Bogus", (none : Option Value)) ∈ X_input ["Bogus"] r1 :=
  ⟨rfl, (c10_no_feature_name_check constClassifier ["Bogus"] r1 rfl).2.1 "Bogus"
    (by simp) (by simp [FORM_FIELDS])⟩

end FallPredictor
